import Mathlib

/-! DxToy: texture streaming (TextureResource.h, ResourceManager.h)

A shallow embedding of the per-texture load/unload state machine
(`CTextureResource`), the completion fence (`Fence`) and the request engine
(`ResourceManager`), followed by theorems about them.

Conventions of the embedding.

* A call that hits a failing `assert`, or dereferences a null or dangling
  pointer, returns `Except.error`; the asserts are compiled in.
* Direct3D calls are taken to succeed (`ThrowIfFailed` never throws).  The
  device is a counter of committed resources plus the log of descriptor
  writes, a command list is the list of recorded commands, a command queue is
  the log of submissions and signals.
* `UINT64` counters are natural numbers reduced modulo `2 ^ 64` at every
  increment.
* `CTextureResource*` pointers are indices into the list of textures owned by
  the caller; `none` is the null pointer.
* `GetRequiredIntermediateSize` (d3dx12.h) is not part of the repository and
  is a parameter `sz` of the routines that call it.
-/

namespace DxToy

/-- Reasons for which a call does not return normally. -/
inductive Fault
  | assertion
  | nullPointer
  deriving DecidableEq, Repr

/-- The enum `EResourceState` of TextureResource.h. -/
inductive EResourceState
  | Unloaded
  | Loading
  | Loaded
  | Unloading
  deriving DecidableEq, Repr

/-- Resource states used by the recorded transition barrier. -/
inductive D3D12_RESOURCE_STATES
  | COPY_DEST
  | GENERIC_READ
  | PIXEL_SHADER_RESOURCE
  deriving DecidableEq, Repr

/-- A committed resource, as created by `CreateCommittedResource`: a 2D texture
in the default heap or a buffer in the upload heap.  The field `id` is the
identity of the allocation. -/
inductive ID3D12Resource
  | texture2D (id width height format mip_levels : Nat)
  | buffer (id size : Nat)
  deriving DecidableEq, Repr

/-- The caller's pixel payload: address, row pitch and slice pitch. -/
structure D3D12_SUBRESOURCE_DATA where
  pData : Nat
  RowPitch : Int
  SlicePitch : Int
  deriving DecidableEq, Repr

/-- A shader resource view written into a descriptor slot; `resource` is `none`
for the null view. -/
structure ShaderResourceView where
  resource : Option ID3D12Resource
  format : Nat
  mip_levels : Nat
  deriving DecidableEq, Repr

/-- The device: how many committed resources it has created, and the descriptor
writes it has performed (slot, view), oldest first. -/
structure ID3D12Device where
  created : Nat
  descriptors : List (Nat × ShaderResourceView)
  deriving DecidableEq, Repr

/-- Commands recorded into a command list. -/
inductive Command
  | updateSubresources (dst intermediate : ID3D12Resource) (subresourceCount : Nat)
      (data : D3D12_SUBRESOURCE_DATA)
  | transition (resource : ID3D12Resource) (before after : D3D12_RESOURCE_STATES)
  deriving DecidableEq, Repr

/-- A command list: whether it is open for recording, and what was recorded. -/
structure ID3D12GraphicsCommandList where
  recording : Bool
  commands : List Command
  deriving DecidableEq, Repr

/-- What a command queue was asked to do. -/
inductive QueueOp
  | executeCommandLists (commands : List Command)
  | signal (value : Nat)
  deriving DecidableEq, Repr

/-- A command queue: the log of its submissions and signals, oldest first. -/
structure ID3D12CommandQueue where
  log : List QueueOp
  deriving DecidableEq, Repr

/-- Number of fence signals a queue has been asked for. -/
def ID3D12CommandQueue.signalCount (q : ID3D12CommandQueue) : Nat :=
  (q.log.filter (fun op => match op with
    | QueueOp.signal _ => true
    | _ => false)).length

/-- `DXGI_FORMAT_R8G8B8A8_UNORM`. -/
def DXGI_FORMAT_R8G8B8A8_UNORM : Nat := 28

/-- `DXGI_FORMAT_UNKNOWN`. -/
def DXGI_FORMAT_UNKNOWN : Nat := 0

/-- Increment of a `UINT64`. -/
def incr64 (n : Nat) : Nat := (n + 1) % 2 ^ 64

/-! ## TextureResource.h -/

/-- The class `CTextureResource`: destination buffer, staging buffer, state. -/
structure CTextureResource where
  resource_ : Option ID3D12Resource
  upload_heap_ : Option ID3D12Resource
  state_ : EResourceState
  deriving DecidableEq, Repr

/-- A default-constructed `CTextureResource`. -/
def CTextureResource.fresh : CTextureResource :=
  { resource_ := none, upload_heap_ := none, state_ := EResourceState.Unloaded }

/-- The method `CTextureResource::StartLoad`. -/
def CTextureResource.StartLoad (sz : ID3D12Resource → Nat → Nat → Nat)
    (self : CTextureResource)
    (device : Option ID3D12Device) (command_list : Option ID3D12GraphicsCommandList)
    (width height format : Nat) (data : D3D12_SUBRESOURCE_DATA) (descriptor_handle : Nat) :
    Except Fault (CTextureResource × ID3D12Device × ID3D12GraphicsCommandList) :=
  -- assert(!resource_ && !upload_heap_);
  if !(self.resource_.isNone && self.upload_heap_.isNone) then Except.error Fault.assertion
  -- assert(EResourceState::Unloaded == state_);
  else if self.state_ ≠ EResourceState.Unloaded then Except.error Fault.assertion
  else
    -- state_ = EResourceState::Loading;  assert(device && command_list);
    match device, command_list with
    | some dev, some cl =>
      let mip_levels := 1
      -- CreateCommittedResource(DEFAULT heap, texDesc, COPY_DEST, &resource_)
      let tex := ID3D12Resource.texture2D dev.created width height format mip_levels
      let dev1 : ID3D12Device := { dev with created := dev.created + 1 }
      let subresourceCount := 1 * mip_levels
      let uploadBufferSize := sz tex 0 subresourceCount
      -- CreateCommittedResource(UPLOAD heap, Buffer(uploadBufferSize), &upload_heap_)
      let up := ID3D12Resource.buffer dev1.created uploadBufferSize
      let dev2 : ID3D12Device := { dev1 with created := dev1.created + 1 }
      -- UpdateSubresources(...); ResourceBarrier(COPY_DEST -> PIXEL_SHADER_RESOURCE)
      let cl1 : ID3D12GraphicsCommandList :=
        { cl with commands := cl.commands ++
            [Command.updateSubresources tex up subresourceCount data,
             Command.transition tex D3D12_RESOURCE_STATES.COPY_DEST
               D3D12_RESOURCE_STATES.PIXEL_SHADER_RESOURCE] }
      -- CreateShaderResourceView(resource_, &srvDesc, descriptor_handle)
      let srv : ShaderResourceView :=
        { resource := some tex, format := format, mip_levels := mip_levels }
      let dev3 : ID3D12Device :=
        { dev2 with descriptors := dev2.descriptors ++ [(descriptor_handle, srv)] }
      Except.ok
        ({ resource_ := some tex, upload_heap_ := some up, state_ := EResourceState.Loading },
         dev3, cl1)
    | _, _ => Except.error Fault.assertion

/-- The method `CTextureResource::EndLoad`. -/
def CTextureResource.EndLoad (self : CTextureResource) : Except Fault CTextureResource :=
  Except.ok { self with state_ := EResourceState.Loaded }

/-- The method `CTextureResource::StartUnload`. -/
def CTextureResource.StartUnload (self : CTextureResource) (device : Option ID3D12Device)
    (descriptor_handle : Nat) : Except Fault (CTextureResource × ID3D12Device) :=
  -- state_ = EResourceState::Unloading;
  let self1 : CTextureResource := { self with state_ := EResourceState.Unloading }
  -- device->CreateShaderResourceView(nullptr, &nullSrvDesc, descriptor_handle);
  match device with
  | none => Except.error Fault.nullPointer
  | some dev =>
    let nullSrv : ShaderResourceView :=
      { resource := none, format := DXGI_FORMAT_R8G8B8A8_UNORM, mip_levels := 1 }
    Except.ok (self1, { dev with descriptors := dev.descriptors ++ [(descriptor_handle, nullSrv)] })

/-- The method `CTextureResource::EndUnload`. -/
def CTextureResource.EndUnload (self : CTextureResource) : Except Fault CTextureResource :=
  -- state_ = Unloaded; upload_heap_ = nullptr; resource_ = nullptr;
  Except.ok { self with state_ := EResourceState.Unloaded, upload_heap_ := none, resource_ := none }

/-- The method `CTextureResource::IsValid`. -/
def CTextureResource.IsValid (self : CTextureResource) : Bool :=
  decide (EResourceState.Loaded = self.state_)

/-! ## ResourceManager.h: Fence -/

/-- The class `Fence`.  `fence_` is the created fence object (its initial
value), null before `Initialize`. -/
structure Fence where
  fence_ : Option Nat
  next_value_ : Nat
  value_to_wait_for_ : Nat
  deriving DecidableEq, Repr

/-- A default-constructed `Fence`. -/
def Fence.fresh : Fence :=
  { fence_ := none, next_value_ := 0, value_to_wait_for_ := 0 }

/-- The method `Fence::Initialize`. -/
def Fence.Initialize (self : Fence) (device : Option ID3D12Device) : Except Fault Fence :=
  match device with
  | none => Except.error Fault.nullPointer
  | some _ =>
    -- CreateFence(next_value_, ...); next_value_++;
    Except.ok { self with fence_ := some self.next_value_, next_value_ := incr64 self.next_value_ }

/-- The method `Fence::SignalFromQueue`. -/
def Fence.SignalFromQueue (self : Fence) (queue : Option ID3D12CommandQueue) :
    Except Fault (Fence × ID3D12CommandQueue) :=
  match queue with
  | none => Except.error Fault.nullPointer
  | some q =>
    -- queue->Signal(fence_.Get(), next_value_); value_to_wait_for_ = next_value_; next_value_++;
    Except.ok
      ({ self with value_to_wait_for_ := self.next_value_, next_value_ := incr64 self.next_value_ },
       { q with log := q.log ++ [QueueOp.signal self.next_value_] })

/-- The method `Fence::WaitForCompletion`: blocks until the fence object has
reached `value_to_wait_for_`; it changes no field.  The value it waits for is
returned next to the fence. -/
def Fence.WaitForCompletion (self : Fence) : Except Fault (Nat × Fence) :=
  match self.fence_ with
  | none => Except.error Fault.nullPointer
  | some _ => Except.ok (self.value_to_wait_for_, self)

/-- The method `SignalFromQueue` called `k` times in a row on the same queue. -/
def Fence.signalTimes : Nat → Fence → ID3D12CommandQueue → Except Fault (Fence × ID3D12CommandQueue)
  | 0, f, q => Except.ok (f, q)
  | k + 1, f, q =>
    match f.SignalFromQueue (some q) with
    | Except.error e => Except.error e
    | Except.ok (f1, q1) => Fence.signalTimes k f1 q1

/-! ## ResourceManager.h: LoadingRequest and ResourceManager -/

/-- The struct `LoadingRequest`.  `texture_` points into the caller's textures. -/
structure LoadingRequest where
  data_ : D3D12_SUBRESOURCE_DATA
  texture_ : Option Nat
  width_ : Nat
  height_ : Nat
  format_ : Nat
  descriptor_handle_ : Nat
  deriving DecidableEq, Repr

/-- The class `ResourceManager`.  `command_allocator_` records whether the
allocator has been created. -/
structure ResourceManager where
  command_allocator_ : Bool
  command_queue_ : Option ID3D12CommandQueue
  command_list_ : Option ID3D12GraphicsCommandList
  upload_heap_ : Option ID3D12Resource
  pending_requests : List LoadingRequest
  processing_requests : List LoadingRequest
  fence_ : Fence
  deriving DecidableEq, Repr

/-- A default-constructed `ResourceManager`. -/
def ResourceManager.fresh : ResourceManager :=
  { command_allocator_ := false, command_queue_ := none, command_list_ := none,
    upload_heap_ := none, pending_requests := [], processing_requests := [],
    fence_ := Fence.fresh }

/-- Everything the engine's methods read or write: the device behind the
`device` pointer passed to them (`none` for a null pointer), the command list
the caller passes to `CTextureResource::StartLoad`, the textures owned by the
caller, and the manager itself. -/
structure World where
  device : Option ID3D12Device
  command_list : Option ID3D12GraphicsCommandList
  textures : List CTextureResource
  rm : ResourceManager
  deriving DecidableEq, Repr

/-- The private method `ResourceManager::HandleRequest`, on the parts of the
world it touches: the device, the manager's command list and the textures. -/
def ResourceManager.HandleRequest (sz : ID3D12Resource → Nat → Nat → Nat)
    (device : Option ID3D12Device) (command_list_ : Option ID3D12GraphicsCommandList)
    (textures : List CTextureResource) (request : LoadingRequest) :
    Except Fault (ID3D12Device × ID3D12GraphicsCommandList × List CTextureResource) :=
  match request.texture_ with
  | none => Except.error Fault.nullPointer
  | some p =>
    match textures[p]? with
    | none => Except.error Fault.nullPointer
    | some t =>
      -- assert(!request.texture_->resource_ && !request.texture_->upload_heap_);
      if !(t.resource_.isNone && t.upload_heap_.isNone) then Except.error Fault.assertion
      -- assert(EResourceState::Unloaded == request.texture_->state_);
      else if t.state_ ≠ EResourceState.Unloaded then Except.error Fault.assertion
      else
        -- request.texture_->state_ = Loading;  assert(device && command_list_);
        match device, command_list_ with
        | some dev, some cl =>
          let mip_levels := 1
          let tex := ID3D12Resource.texture2D dev.created request.width_ request.height_
            request.format_ mip_levels
          let dev1 : ID3D12Device := { dev with created := dev.created + 1 }
          let subresourceCount := 1 * mip_levels
          let uploadBufferSize := sz tex 0 subresourceCount
          let up := ID3D12Resource.buffer dev1.created uploadBufferSize
          let dev2 : ID3D12Device := { dev1 with created := dev1.created + 1 }
          let cl1 : ID3D12GraphicsCommandList :=
            { cl with commands := cl.commands ++
                [Command.updateSubresources tex up subresourceCount request.data_,
                 Command.transition tex D3D12_RESOURCE_STATES.COPY_DEST
                   D3D12_RESOURCE_STATES.PIXEL_SHADER_RESOURCE] }
          let srv : ShaderResourceView :=
            { resource := some tex, format := request.format_, mip_levels := mip_levels }
          let dev3 : ID3D12Device :=
            { dev2 with descriptors := dev2.descriptors ++ [(request.descriptor_handle_, srv)] }
          Except.ok (dev3, cl1,
            textures.set p
              { resource_ := some tex, upload_heap_ := some up, state_ := EResourceState.Loading })
        | _, _ => Except.error Fault.assertion

/-- The loop `for (auto& it : processing_requests) HandleRequest(device, it);`
of `Execute`. -/
def ResourceManager.handleAll (sz : ID3D12Resource → Nat → Nat → Nat) :
    List LoadingRequest → Option ID3D12Device → Option ID3D12GraphicsCommandList →
    List CTextureResource →
    Except Fault (Option ID3D12Device × Option ID3D12GraphicsCommandList × List CTextureResource)
  | [], device, command_list_, textures => Except.ok (device, command_list_, textures)
  | it :: rest, device, command_list_, textures =>
    match ResourceManager.HandleRequest sz device command_list_ textures it with
    | Except.error e => Except.error e
    | Except.ok (dev, cl, ts) => ResourceManager.handleAll sz rest (some dev) (some cl) ts

/-- The method `ResourceManager::Initialize`. -/
def ResourceManager.Initialize (w : World) : Except Fault World :=
  match w.device with
  | none => Except.error Fault.nullPointer
  | some _ =>
    -- CreateCommandQueue, CreateCommandAllocator, CreateCommandList (open for recording)
    match w.rm.fence_.Initialize w.device with
    | Except.error e => Except.error e
    | Except.ok f =>
      Except.ok { w with rm := { w.rm with
        command_queue_ := some { log := [] },
        command_allocator_ := true,
        command_list_ := some { recording := true, commands := [] },
        fence_ := f } }

/-- The method `ResourceManager::RegisterLoadRequest`. -/
def ResourceManager.RegisterLoadRequest (w : World) (request : LoadingRequest) :
    Except Fault World :=
  Except.ok { w with rm := { w.rm with pending_requests := w.rm.pending_requests ++ [request] } }

/-- The method `ResourceManager::Execute`. -/
def ResourceManager.Execute (sz : ID3D12Resource → Nat → Nat → Nat) (w : World) :
    Except Fault World :=
  -- assert(processing_requests.empty());
  if !w.rm.processing_requests.isEmpty then Except.error Fault.assertion
  else
    -- std::swap(pending_requests, processing_requests);
    let rm1 : ResourceManager := { w.rm with
      pending_requests := w.rm.processing_requests,
      processing_requests := w.rm.pending_requests }
    -- if (pending_requests.empty()) return;
    if rm1.pending_requests.isEmpty then Except.ok { w with rm := rm1 }
    else
      -- command_list_->Reset(command_allocator_.Get(), nullptr)
      match rm1.command_list_ with
      | none => Except.error Fault.nullPointer
      | some cl =>
        let cl0 : ID3D12GraphicsCommandList := { cl with recording := true, commands := [] }
        match ResourceManager.handleAll sz rm1.processing_requests w.device (some cl0)
            w.textures with
        | Except.error e => Except.error e
        | Except.ok (device, command_list_, textures) =>
          -- command_list_->Close()
          match command_list_ with
          | none => Except.error Fault.nullPointer
          | some cl2 =>
            let cl3 : ID3D12GraphicsCommandList := { cl2 with recording := false }
            -- command_queue_->ExecuteCommandLists(1, command_lists)
            match rm1.command_queue_ with
            | none => Except.error Fault.nullPointer
            | some q =>
              let q1 : ID3D12CommandQueue :=
                { q with log := q.log ++ [QueueOp.executeCommandLists cl3.commands] }
              -- fence_.SignalFromQueue(command_queue_.Get())
              match rm1.fence_.SignalFromQueue (some q1) with
              | Except.error e => Except.error e
              | Except.ok (f, q2) =>
                Except.ok { w with
                  device := device, textures := textures,
                  rm := { rm1 with command_list_ := some cl3, command_queue_ := some q2,
                                   fence_ := f } }

/-- The method `ResourceManager::WaitForCopyQueue`. -/
def ResourceManager.WaitForCopyQueue (w : World) : Except Fault World :=
  match w.rm.fence_.WaitForCompletion with
  | Except.error e => Except.error e
  | Except.ok (_, f) => Except.ok { w with rm := { w.rm with fence_ := f } }

/-- The loop of `AfterExecution` over `processing_requests`. -/
def ResourceManager.finishAll :
    List LoadingRequest → List CTextureResource → Except Fault (List CTextureResource)
  | [], textures => Except.ok textures
  | it :: rest, textures =>
    -- assert(it.texture_ && (EResourceState::Loading == it.texture_->state_));
    match it.texture_ with
    | none => Except.error Fault.assertion
    | some p =>
      match textures[p]? with
      | none => Except.error Fault.nullPointer
      | some t =>
        if EResourceState.Loading = t.state_ then
          -- it.texture_->state_ = EResourceState::Loaded;
          ResourceManager.finishAll rest (textures.set p { t with state_ := EResourceState.Loaded })
        else Except.error Fault.assertion

/-- The method `ResourceManager::AfterExecution`. -/
def ResourceManager.AfterExecution (w : World) : Except Fault World :=
  match ResourceManager.finishAll w.rm.processing_requests w.textures with
  | Except.error e => Except.error e
  | Except.ok textures =>
    -- processing_requests.clear();
    Except.ok { w with textures := textures, rm := { w.rm with processing_requests := [] } }

/-! ## Sequences of public calls -/

/-- One public call: a method of the texture at index `tex`, or a method of the
manager. -/
inductive Op
  | StartLoad (tex width height format : Nat) (data : D3D12_SUBRESOURCE_DATA)
      (descriptor_handle : Nat)
  | EndLoad (tex : Nat)
  | StartUnload (tex descriptor_handle : Nat)
  | EndUnload (tex : Nat)
  | RegisterLoadRequest (request : LoadingRequest)
  | Execute
  | WaitForCopyQueue
  | AfterExecution
  deriving DecidableEq, Repr

/-- Performs one public call on the world. -/
def step (sz : ID3D12Resource → Nat → Nat → Nat) (w : World) : Op → Except Fault World
  | Op.StartLoad tex width height format data descriptor_handle =>
    match w.textures[tex]? with
    | none => Except.error Fault.nullPointer
    | some t =>
      match t.StartLoad sz w.device w.command_list width height format data descriptor_handle with
      | Except.error e => Except.error e
      | Except.ok (t1, dev, cl) =>
        Except.ok { w with device := some dev, command_list := some cl,
                           textures := w.textures.set tex t1 }
  | Op.EndLoad tex =>
    match w.textures[tex]? with
    | none => Except.error Fault.nullPointer
    | some t =>
      match t.EndLoad with
      | Except.error e => Except.error e
      | Except.ok t1 => Except.ok { w with textures := w.textures.set tex t1 }
  | Op.StartUnload tex descriptor_handle =>
    match w.textures[tex]? with
    | none => Except.error Fault.nullPointer
    | some t =>
      match t.StartUnload w.device descriptor_handle with
      | Except.error e => Except.error e
      | Except.ok (t1, dev) =>
        Except.ok { w with device := some dev, textures := w.textures.set tex t1 }
  | Op.EndUnload tex =>
    match w.textures[tex]? with
    | none => Except.error Fault.nullPointer
    | some t =>
      match t.EndUnload with
      | Except.error e => Except.error e
      | Except.ok t1 => Except.ok { w with textures := w.textures.set tex t1 }
  | Op.RegisterLoadRequest request => ResourceManager.RegisterLoadRequest w request
  | Op.Execute => ResourceManager.Execute sz w
  | Op.WaitForCopyQueue => ResourceManager.WaitForCopyQueue w
  | Op.AfterExecution => ResourceManager.AfterExecution w

/-- Performs a sequence of public calls, stopping at the first fault. -/
def run (sz : ID3D12Resource → Nat → Nat → Nat) : List Op → World → Except Fault World
  | [], w => Except.ok w
  | op :: ops, w =>
    match step sz w op with
    | Except.error e => Except.error e
    | Except.ok w1 => run sz ops w1

/-- A world with a device that has created nothing, an open command list of the
caller, `n` default-constructed textures and a default-constructed manager. -/
def World.fresh (n : Nat) : World :=
  { device := some { created := 0, descriptors := [] },
    command_list := some { recording := true, commands := [] },
    textures := List.replicate n CTextureResource.fresh,
    rm := ResourceManager.fresh }

/-- The world `World.fresh n` after `ResourceManager::Initialize`. -/
def World.initialized (n : Nat) : World :=
  let w := World.fresh n
  { w with rm := { w.rm with
      command_queue_ := some { log := [] },
      command_allocator_ := true,
      command_list_ := some { recording := true, commands := [] },
      fence_ := { fence_ := some 0, next_value_ := 1, value_to_wait_for_ := 0 } } }

/-- A staging size used in examples: four bytes per pixel, rows padded to 256 bytes. -/
def exampleSize : ID3D12Resource → Nat → Nat → Nat
  | ID3D12Resource.texture2D _ width height _ _, _, _ =>
    (height - 1) * ((width * 4 + 255) / 256 * 256) + width * 4
  | ID3D12Resource.buffer _ size, _, _ => size

/-- A request for texture `tex`: 256 x 256 pixels of 4 bytes, 262144 bytes of data. -/
def exampleRequest (tex : Nat) : LoadingRequest :=
  { data_ := { pData := 4096, RowPitch := 1024, SlicePitch := 262144 },
    texture_ := some tex, width_ := 256, height_ := 256,
    format_ := DXGI_FORMAT_R8G8B8A8_UNORM, descriptor_handle_ := 64 + tex }

/-- A sequence of calls used in examples: load, unload and reload of texture 0
through its own methods, then an engine cycle with nothing pending. -/
def exampleCycle : List Op :=
  [Op.StartLoad 0 256 256 DXGI_FORMAT_R8G8B8A8_UNORM
     { pData := 4096, RowPitch := 1024, SlicePitch := 262144 } 64,
   Op.EndLoad 0, Op.StartUnload 0 64, Op.EndUnload 0,
   Op.StartLoad 0 256 256 DXGI_FORMAT_R8G8B8A8_UNORM
     { pData := 4096, RowPitch := 1024, SlicePitch := 262144 } 64,
   Op.Execute, Op.WaitForCopyQueue, Op.AfterExecution]

/-- Ownership invariant of one texture: it owns both buffers or none, owns none
while `Unloaded`, and owns both while `Loading`. -/
def CTextureResource.Inv (t : CTextureResource) : Prop :=
  t.resource_.isSome = t.upload_heap_.isSome ∧
  (t.state_ = EResourceState.Unloaded → t.resource_ = none) ∧
  (t.state_ = EResourceState.Loading → t.resource_.isSome = true)

/-! ## The fence counters -/

theorem incr64_lt (n : Nat) : incr64 n < 2 ^ 64 :=
  Nat.mod_lt _ (by norm_num)

/-- One `SignalFromQueue` on a non-null queue returns, records the old
`next_value_` and increments it. -/
theorem Fence.SignalFromQueue_some (f : Fence) (q : ID3D12CommandQueue) :
    f.SignalFromQueue (some q) = Except.ok
      ({ f with value_to_wait_for_ := f.next_value_, next_value_ := incr64 f.next_value_ },
       { q with log := q.log ++ [QueueOp.signal f.next_value_] }) := rfl

/-- After `k` signals the counters are determined by the initial `next_value_`. -/
theorem Fence.signalTimes_counters (k : Nat) :
    ∀ (f : Fence) (q : ID3D12CommandQueue), f.next_value_ < 2 ^ 64 →
      ∃ fk qk, Fence.signalTimes k f q = Except.ok (fk, qk) ∧
        fk.fence_ = f.fence_ ∧
        fk.next_value_ = (f.next_value_ + k) % 2 ^ 64 ∧
        fk.value_to_wait_for_ =
          (if k = 0 then f.value_to_wait_for_ else (f.next_value_ + (k - 1)) % 2 ^ 64) := by
  induction k with
  | zero =>
    intro f q hf
    exact ⟨f, q, rfl, rfl, (Nat.mod_eq_of_lt hf).symm, by simp⟩
  | succ k ih =>
    intro f q hf
    obtain ⟨fk, qk, hrun, hfence, hnext, hwait⟩ :=
      ih { f with value_to_wait_for_ := f.next_value_, next_value_ := incr64 f.next_value_ }
        { q with log := q.log ++ [QueueOp.signal f.next_value_] } (incr64_lt _)
    refine ⟨fk, qk, ?_, hfence, ?_, ?_⟩
    · simp only [Fence.signalTimes, Fence.SignalFromQueue_some]
      exact hrun
    · rw [hnext]
      simp only [incr64]
      rw [Nat.mod_add_mod]
      congr 1
      omega
    · rw [hwait]
      simp only [incr64]
      by_cases hk : k = 0
      · subst hk
        exact (Nat.mod_eq_of_lt hf).symm
      · simp only [hk, if_false, Nat.succ_ne_zero, Nat.add_sub_cancel]
        rw [Nat.mod_add_mod]
        congr 1
        omega

/-! ## The texture state machine -/

/-- `StartLoad` on a texture that is `Unloaded` and owns nothing, with a device
and a command list, returns a `Loading` texture owning both buffers. -/
theorem CTextureResource.StartLoad_fresh (sz : ID3D12Resource → Nat → Nat → Nat)
    (dev : ID3D12Device) (cl : ID3D12GraphicsCommandList)
    (width height format : Nat) (data : D3D12_SUBRESOURCE_DATA) (descriptor_handle : Nat) :
    CTextureResource.fresh.StartLoad sz (some dev) (some cl) width height format data
        descriptor_handle =
      Except.ok
        ({ resource_ := some (ID3D12Resource.texture2D dev.created width height format 1),
           upload_heap_ := some (ID3D12Resource.buffer (dev.created + 1)
             (sz (ID3D12Resource.texture2D dev.created width height format 1) 0 1)),
           state_ := EResourceState.Loading },
         { created := dev.created + 1 + 1,
           descriptors := dev.descriptors ++ [(descriptor_handle,
             { resource := some (ID3D12Resource.texture2D dev.created width height format 1),
               format := format, mip_levels := 1 })] },
         { recording := cl.recording,
           commands := cl.commands ++
             [Command.updateSubresources
                (ID3D12Resource.texture2D dev.created width height format 1)
                (ID3D12Resource.buffer (dev.created + 1)
                  (sz (ID3D12Resource.texture2D dev.created width height format 1) 0 1))
                1 data,
              Command.transition (ID3D12Resource.texture2D dev.created width height format 1)
                D3D12_RESOURCE_STATES.COPY_DEST D3D12_RESOURCE_STATES.PIXEL_SHADER_RESOURCE] }) :=
  rfl

/-- A texture that is `Unloaded` and owns no buffer is the default-constructed one. -/
theorem CTextureResource.eq_fresh (t : CTextureResource) (hs : t.state_ = EResourceState.Unloaded)
    (hr : t.resource_ = none) (hu : t.upload_heap_ = none) : t = CTextureResource.fresh := by
  cases t
  simp only [CTextureResource.fresh] at *
  simp [hs, hr, hu]

/-- `StartLoad` fails its asserts on a texture that is not `Unloaded` or owns a buffer. -/
theorem CTextureResource.StartLoad_rejects (sz : ID3D12Resource → Nat → Nat → Nat)
    (t : CTextureResource) (device : Option ID3D12Device)
    (command_list : Option ID3D12GraphicsCommandList)
    (width height format : Nat) (data : D3D12_SUBRESOURCE_DATA) (descriptor_handle : Nat)
    (h : t.state_ ≠ EResourceState.Unloaded ∨ t.resource_ ≠ none ∨ t.upload_heap_ ≠ none) :
    t.StartLoad sz device command_list width height format data descriptor_handle =
      Except.error Fault.assertion := by
  obtain ⟨r, u, s⟩ := t
  cases r <;> cases u <;> cases s <;> simp_all [CTextureResource.StartLoad]

/-- `HandleRequest` fails its asserts on a texture that is not `Unloaded` or owns a buffer. -/
theorem ResourceManager.HandleRequest_rejects (sz : ID3D12Resource → Nat → Nat → Nat)
    (device : Option ID3D12Device) (command_list_ : Option ID3D12GraphicsCommandList)
    (textures : List CTextureResource) (request : LoadingRequest) (p : Nat)
    (t : CTextureResource) (hp : request.texture_ = some p) (ht : textures[p]? = some t)
    (h : t.state_ ≠ EResourceState.Unloaded ∨ t.resource_ ≠ none ∨ t.upload_heap_ ≠ none) :
    ResourceManager.HandleRequest sz device command_list_ textures request =
      Except.error Fault.assertion := by
  obtain ⟨r, u, s⟩ := t
  cases r <;> cases u <;> cases s <;> simp_all [ResourceManager.HandleRequest]

/-- `HandleRequest` on a default-constructed texture does what `StartLoad` does. -/
theorem ResourceManager.HandleRequest_fresh (sz : ID3D12Resource → Nat → Nat → Nat)
    (dev : ID3D12Device) (cl : ID3D12GraphicsCommandList)
    (textures : List CTextureResource) (request : LoadingRequest) (p : Nat)
    (hp : request.texture_ = some p) (ht : textures[p]? = some CTextureResource.fresh) :
    ∃ t1 dev1 cl1,
      CTextureResource.fresh.StartLoad sz (some dev) (some cl) request.width_ request.height_
        request.format_ request.data_ request.descriptor_handle_ = Except.ok (t1, dev1, cl1) ∧
      ResourceManager.HandleRequest sz (some dev) (some cl) textures request =
        Except.ok (dev1, cl1, textures.set p t1) := by
  refine ⟨_, _, _, CTextureResource.StartLoad_fresh sz dev cl _ _ _ _ _, ?_⟩
  simp [ResourceManager.HandleRequest, hp, ht, CTextureResource.fresh]

/-! ## The engine -/

/-- With an empty in-flight queue, `Execute` swaps the queues and returns at
the emptiness test on `pending_requests`, which now holds the old in-flight
queue. -/
theorem ResourceManager.Execute_of_processing_empty (sz : ID3D12Resource → Nat → Nat → Nat)
    (w : World) (h : w.rm.processing_requests = []) :
    ResourceManager.Execute sz w = Except.ok { w with rm := { w.rm with
      pending_requests := [], processing_requests := w.rm.pending_requests } } := by
  simp [ResourceManager.Execute, h]

/-- With a non-empty in-flight queue, `Execute` fails its assert. -/
theorem ResourceManager.Execute_of_processing_nonempty (sz : ID3D12Resource → Nat → Nat → Nat)
    (w : World) (h : w.rm.processing_requests ≠ []) :
    ResourceManager.Execute sz w = Except.error Fault.assertion := by
  simp [ResourceManager.Execute, h]

/-- `Execute`, when it returns, has touched nothing but the two queues. -/
theorem ResourceManager.Execute_ok (sz : ID3D12Resource → Nat → Nat → Nat) (w w1 : World)
    (h : ResourceManager.Execute sz w = Except.ok w1) :
    w.rm.processing_requests = [] ∧
    w1 = { w with rm := { w.rm with
      pending_requests := [], processing_requests := w.rm.pending_requests } } := by
  by_cases hp : w.rm.processing_requests = []
  · rw [ResourceManager.Execute_of_processing_empty sz w hp] at h
    exact ⟨hp, (Except.ok.inj h).symm⟩
  · rw [ResourceManager.Execute_of_processing_nonempty sz w hp] at h
    cases h

/-- Registering the requests of `P` one after the other appends `P` to the
pending queue and changes nothing else. -/
theorem run_register (sz : ID3D12Resource → Nat → Nat → Nat) (P : List LoadingRequest) :
    ∀ w : World, run sz (P.map Op.RegisterLoadRequest) w =
      Except.ok { w with rm := { w.rm with pending_requests := w.rm.pending_requests ++ P } } := by
  induction P with
  | nil => intro w; simp [run]
  | cons r P ih =>
    intro w
    simp only [List.map_cons, run, step, ResourceManager.RegisterLoadRequest]
    rw [ih]
    simp

/-- `Initialize` on the fresh world returns the initialized world. -/
theorem ResourceManager.Initialize_fresh (n : Nat) :
    ResourceManager.Initialize (World.fresh n) = Except.ok (World.initialized n) := rfl

/-! ## The ownership invariant -/

theorem CTextureResource.Inv_fresh : CTextureResource.fresh.Inv := by
  simp [CTextureResource.Inv, CTextureResource.fresh]

theorem CTextureResource.Inv_StartLoad (sz : ID3D12Resource → Nat → Nat → Nat)
    (t t1 : CTextureResource) (device : Option ID3D12Device)
    (command_list : Option ID3D12GraphicsCommandList)
    (width height format : Nat) (data : D3D12_SUBRESOURCE_DATA) (descriptor_handle : Nat)
    (dev : ID3D12Device) (cl : ID3D12GraphicsCommandList)
    (h : t.StartLoad sz device command_list width height format data descriptor_handle =
      Except.ok (t1, dev, cl)) : t1.Inv := by
  unfold CTextureResource.StartLoad at h
  split at h
  · cases h
  · split at h
    · cases h
    · split at h
      · simp only [Except.ok.injEq, Prod.mk.injEq] at h
        rw [← h.1]
        simp [CTextureResource.Inv]
      · cases h

theorem CTextureResource.Inv_EndLoad (t t1 : CTextureResource) (ht : t.Inv)
    (h : t.EndLoad = Except.ok t1) : t1.Inv := by
  simp only [CTextureResource.EndLoad, Except.ok.injEq] at h
  subst h
  exact ⟨ht.1, by simp, by simp⟩

theorem CTextureResource.Inv_StartUnload (t t1 : CTextureResource) (device : Option ID3D12Device)
    (descriptor_handle : Nat) (dev : ID3D12Device) (ht : t.Inv)
    (h : t.StartUnload device descriptor_handle = Except.ok (t1, dev)) : t1.Inv := by
  unfold CTextureResource.StartUnload at h
  split at h
  · cases h
  · simp only [Except.ok.injEq, Prod.mk.injEq] at h
    rw [← h.1]
    exact ⟨ht.1, by simp, by simp⟩

theorem CTextureResource.Inv_EndUnload (t t1 : CTextureResource)
    (h : t.EndUnload = Except.ok t1) : t1.Inv := by
  simp only [CTextureResource.EndUnload, Except.ok.injEq] at h
  subst h
  simp [CTextureResource.Inv]

/-- Replacing one texture by one that satisfies the invariant keeps the
invariant of all textures. -/
theorem Inv_set (ts : List CTextureResource) (i : Nat) (t1 : CTextureResource)
    (hts : ∀ t ∈ ts, t.Inv) (h1 : t1.Inv) : ∀ t ∈ ts.set i t1, t.Inv := by
  intro t ht
  rcases List.mem_or_eq_of_mem_set ht with h | h
  · exact hts t h
  · rw [h]; exact h1

/-- The loop of `AfterExecution` keeps the invariant of all textures. -/
theorem ResourceManager.Inv_finishAll (reqs : List LoadingRequest) :
    ∀ ts ts1 : List CTextureResource, (∀ t ∈ ts, t.Inv) →
      ResourceManager.finishAll reqs ts = Except.ok ts1 → ∀ t ∈ ts1, t.Inv := by
  induction reqs with
  | nil =>
    intro ts ts1 hts h
    simp only [ResourceManager.finishAll, Except.ok.injEq] at h
    rw [← h]; exact hts
  | cons it rest ih =>
    intro ts ts1 hts h
    unfold ResourceManager.finishAll at h
    split at h
    · cases h
    · split at h
      · cases h
      · rename_i t hget
        split at h
        · refine ih _ ts1 (Inv_set ts _ _ hts ?_) h
          have ht := hts t (List.getElem?_mem hget)
          exact ⟨ht.1, by simp, by simp⟩
        · cases h

/-- Every public call keeps the invariant of all textures. -/
theorem Inv_step (sz : ID3D12Resource → Nat → Nat → Nat) (w w1 : World) (op : Op)
    (hw : ∀ t ∈ w.textures, t.Inv) (h : step sz w op = Except.ok w1) :
    ∀ t ∈ w1.textures, t.Inv := by
  cases op with
  | StartLoad tex width height format data descriptor_handle =>
    simp only [step] at h
    split at h
    · cases h
    · split at h
      · cases h
      · rename_i hsl
        simp only [Except.ok.injEq] at h
        rw [← h]
        exact Inv_set _ _ _ hw (CTextureResource.Inv_StartLoad _ _ _ _ _ _ _ _ _ _ _ _ hsl)
  | EndLoad tex =>
    simp only [step] at h
    split at h
    · cases h
    · rename_i t hget
      split at h
      · cases h
      · rename_i hel
        simp only [Except.ok.injEq] at h
        rw [← h]
        exact Inv_set _ _ _ hw
          (CTextureResource.Inv_EndLoad _ _ (hw t (List.getElem?_mem hget)) hel)
  | StartUnload tex descriptor_handle =>
    simp only [step] at h
    split at h
    · cases h
    · rename_i t hget
      split at h
      · cases h
      · rename_i hsu
        simp only [Except.ok.injEq] at h
        rw [← h]
        exact Inv_set _ _ _ hw
          (CTextureResource.Inv_StartUnload _ _ _ _ _ (hw t (List.getElem?_mem hget)) hsu)
  | EndUnload tex =>
    simp only [step] at h
    split at h
    · cases h
    · split at h
      · cases h
      · rename_i heu
        simp only [Except.ok.injEq] at h
        rw [← h]
        exact Inv_set _ _ _ hw (CTextureResource.Inv_EndUnload _ _ heu)
  | RegisterLoadRequest request =>
    simp only [step, ResourceManager.RegisterLoadRequest, Except.ok.injEq] at h
    rw [← h]; exact hw
  | Execute =>
    simp only [step] at h
    rw [(ResourceManager.Execute_ok sz w w1 h).2]
    exact hw
  | WaitForCopyQueue =>
    simp only [step, ResourceManager.WaitForCopyQueue] at h
    split at h
    · cases h
    · simp only [Except.ok.injEq] at h
      rw [← h]; exact hw
  | AfterExecution =>
    simp only [step, ResourceManager.AfterExecution] at h
    split at h
    · cases h
    · rename_i hfin
      simp only [Except.ok.injEq] at h
      rw [← h]
      exact ResourceManager.Inv_finishAll _ _ _ hw hfin

/-- Every sequence of public calls keeps the invariant of all textures. -/
theorem Inv_run (sz : ID3D12Resource → Nat → Nat → Nat) (ops : List Op) :
    ∀ w w1 : World, (∀ t ∈ w.textures, t.Inv) → run sz ops w = Except.ok w1 →
      ∀ t ∈ w1.textures, t.Inv := by
  induction ops with
  | nil =>
    intro w w1 hw h
    simp only [run, Except.ok.injEq] at h
    rw [← h]; exact hw
  | cons op ops ih =>
    intro w w1 hw h
    simp only [run] at h
    split at h
    · cases h
    · rename_i w2 hstep
      exact ih w2 w1 (Inv_step sz w w2 op hw hstep) h

theorem Inv_initialized (n : Nat) : ∀ t ∈ (World.initialized n).textures, t.Inv := by
  intro t ht
  simp only [World.initialized, World.fresh] at ht
  rw [List.eq_of_mem_replicate ht]
  exact CTextureResource.Inv_fresh

/-- Running a concatenation of call sequences runs them one after the other. -/
theorem run_append (sz : ID3D12Resource → Nat → Nat → Nat) (a b : List Op) :
    ∀ w w1 : World, run sz a w = Except.ok w1 → run sz (a ++ b) w = run sz b w1 := by
  induction a with
  | nil =>
    intro w w1 h
    simp only [run, Except.ok.injEq] at h
    rw [← h]; rfl
  | cons op a ih =>
    intro w w1 h
    simp only [run, List.cons_append] at h ⊢
    split at h
    · cases h
    · exact ih _ w1 h

/-- On the initialized engine with `n` default-constructed textures, registering
at least one request whose first names an existing texture, then `Execute`,
`WaitForCopyQueue` and `AfterExecution`, ends in the assert of `AfterExecution`:
`Execute` has loaded nothing. -/
theorem run_register_execute_wait_finish (sz : ID3D12Resource → Nat → Nat → Nat) (n p : Nat)
    (r : LoadingRequest) (rest : List LoadingRequest) (hr : r.texture_ = some p) (hp : p < n) :
    run sz (((r :: rest).map Op.RegisterLoadRequest) ++
      [Op.Execute, Op.WaitForCopyQueue, Op.AfterExecution]) (World.initialized n) =
      Except.error Fault.assertion := by
  rw [run_append sz _ _ _ _ (run_register sz (r :: rest) (World.initialized n))]
  have hget : (List.replicate n CTextureResource.fresh)[p]? = some CTextureResource.fresh :=
    List.getElem?_replicate_of_lt hp
  simp only [CTextureResource.fresh] at hget
  simp [run, step, ResourceManager.Execute, ResourceManager.WaitForCopyQueue,
    Fence.WaitForCompletion, ResourceManager.AfterExecution, ResourceManager.finishAll,
    World.initialized, World.fresh, ResourceManager.fresh, hr, hget, CTextureResource.fresh]

/-! ## Claims -/

/-- C1, evaluated on the code: with three requests for three distinct textures
pending and the in-flight queue empty, `Execute` returns without any fence
signal.  The counters keep their values (`next_value_` 1, `value_to_wait_for_`
0), the queue log is still empty, nothing was recorded or submitted, and the
three textures are still `Unloaded`. -/
theorem Execute_three_pending_performs_no_signal :
    ∃ w3 w4 : World,
      run exampleSize
        [Op.RegisterLoadRequest (exampleRequest 0), Op.RegisterLoadRequest (exampleRequest 1),
         Op.RegisterLoadRequest (exampleRequest 2)] (World.initialized 3) = Except.ok w3 ∧
      w3.rm.processing_requests = [] ∧
      w3.rm.pending_requests = [exampleRequest 0, exampleRequest 1, exampleRequest 2] ∧
      ResourceManager.Execute exampleSize w3 = Except.ok w4 ∧
      w4.rm.fence_ = w3.rm.fence_ ∧
      w4.rm.fence_.next_value_ = 1 ∧ w4.rm.fence_.value_to_wait_for_ = 0 ∧
      w4.rm.command_queue_ = some { log := [] } ∧
      (∀ q, w4.rm.command_queue_ = some q → q.signalCount = 0) ∧
      w4.textures = List.replicate 3 CTextureResource.fresh :=
  ⟨_, _, rfl, rfl, rfl, rfl, rfl, rfl, rfl, rfl,
    fun q hq => by cases hq; rfl, rfl⟩

/-- C2, evaluated on the code: one request for a 256 x 256 texture of 4 bytes
per pixel with 262144 bytes of data, then `Execute`, `WaitForCopyQueue` and
`AfterExecution`.  The first three calls return and leave the texture
`Unloaded` (not valid); `AfterExecution` then fails its assert. -/
theorem register_execute_wait_finish_fails_assert :
    (∃ w : World,
      run exampleSize
        [Op.RegisterLoadRequest (exampleRequest 0), Op.Execute, Op.WaitForCopyQueue]
        (World.initialized 1) = Except.ok w ∧
      w.textures = [CTextureResource.fresh] ∧
      w.textures.map CTextureResource.IsValid = [false] ∧
      w.rm.processing_requests = [exampleRequest 0]) ∧
    run exampleSize
      [Op.RegisterLoadRequest (exampleRequest 0), Op.Execute, Op.WaitForCopyQueue,
       Op.AfterExecution]
      (World.initialized 1) = Except.error Fault.assertion :=
  ⟨⟨_, rfl, rfl, rfl, rfl⟩, rfl⟩

/-- C3: from a state whose in-flight queue is empty, registering the requests
of `P` one after the other and then calling `Execute` returns; the in-flight
queue then holds the former pending requests followed by `P`, in registration
order, and the pending queue is empty. -/
theorem Execute_moves_pending_to_processing (sz : ID3D12Resource → Nat → Nat → Nat)
    (w : World) (P : List LoadingRequest) (h : w.rm.processing_requests = []) :
    ∃ w1 w2 : World,
      run sz (P.map Op.RegisterLoadRequest) w = Except.ok w1 ∧
      w1.rm.pending_requests = w.rm.pending_requests ++ P ∧
      w1.rm.processing_requests = [] ∧
      ResourceManager.Execute sz w1 = Except.ok w2 ∧
      w2.rm.processing_requests = w.rm.pending_requests ++ P ∧
      w2.rm.pending_requests = [] := by
  have hex := ResourceManager.Execute_of_processing_empty sz
    { w with rm := { w.rm with pending_requests := w.rm.pending_requests ++ P } } h
  exact ⟨_, _, run_register sz P w, rfl, h, hex, rfl, rfl⟩

/-- Instance of C3 with three requests registered on the initialized engine. -/
theorem Execute_moves_pending_to_processing_witness :
    ∃ w1 w2 : World,
      run exampleSize
        ([exampleRequest 0, exampleRequest 1, exampleRequest 2].map Op.RegisterLoadRequest)
        (World.initialized 3) = Except.ok w1 ∧
      w1.rm.pending_requests =
        (World.initialized 3).rm.pending_requests ++
          [exampleRequest 0, exampleRequest 1, exampleRequest 2] ∧
      w1.rm.processing_requests = [] ∧
      ResourceManager.Execute exampleSize w1 = Except.ok w2 ∧
      w2.rm.processing_requests =
        (World.initialized 3).rm.pending_requests ++
          [exampleRequest 0, exampleRequest 1, exampleRequest 2] ∧
      w2.rm.pending_requests = [] :=
  Execute_moves_pending_to_processing exampleSize (World.initialized 3)
    [exampleRequest 0, exampleRequest 1, exampleRequest 2] rfl

/-- C4 as stated fails: a texture that `StartLoad` has just put in state
`Loading`, owning both buffers, is accepted by `EndUnload`, which returns with
both buffers released. -/
theorem EndUnload_releases_buffers_of_Loading_texture :
    ∃ t t1 : CTextureResource, ∃ dev cl,
      CTextureResource.fresh.StartLoad exampleSize (some { created := 0, descriptors := [] })
        (some { recording := true, commands := [] }) 256 256 DXGI_FORMAT_R8G8B8A8_UNORM
        { pData := 4096, RowPitch := 1024, SlicePitch := 262144 } 64 = Except.ok (t, dev, cl) ∧
      t.state_ = EResourceState.Loading ∧
      t.resource_.isSome = true ∧ t.upload_heap_.isSome = true ∧
      t.EndUnload = Except.ok t1 ∧
      t1.resource_ = none ∧ t1.upload_heap_ = none :=
  ⟨_, _, _, _, rfl, rfl, rfl, rfl, rfl, rfl, rfl⟩

/-- C4 amended: of the four operations only `EndUnload` releases buffers.
`StartLoad` returns only for a texture that owns none, `EndLoad` and
`StartUnload` leave both buffers as they are, and `EndUnload` checks no state:
from every state, `Loading` included, it returns with both buffers released and
the state `Unloaded`, so no operation leaves a texture `Loading` with a buffer
released. -/
theorem only_EndUnload_releases_buffers (sz : ID3D12Resource → Nat → Nat → Nat)
    (t : CTextureResource) :
    (∀ device command_list width height format data descriptor_handle r,
      t.StartLoad sz device command_list width height format data descriptor_handle =
        Except.ok r →
      t.resource_ = none ∧ t.upload_heap_ = none ∧
      r.1.resource_.isSome = true ∧ r.1.upload_heap_.isSome = true) ∧
    (∃ t1, t.EndLoad = Except.ok t1 ∧
      t1.resource_ = t.resource_ ∧ t1.upload_heap_ = t.upload_heap_) ∧
    (∀ device descriptor_handle r,
      t.StartUnload device descriptor_handle = Except.ok r →
      r.1.resource_ = t.resource_ ∧ r.1.upload_heap_ = t.upload_heap_) ∧
    (∃ t1, t.EndUnload = Except.ok t1 ∧
      t1.resource_ = none ∧ t1.upload_heap_ = none ∧ t1.state_ = EResourceState.Unloaded) := by
  refine ⟨?_, ⟨_, rfl, rfl, rfl⟩, ?_, ⟨_, rfl, rfl, rfl, rfl⟩⟩
  · intro device command_list width height format data descriptor_handle r h
    unfold CTextureResource.StartLoad at h
    split at h
    · cases h
    · rename_i hown
      split at h
      · cases h
      · split at h
        · simp only [Except.ok.injEq] at h
          rw [← h]
          obtain ⟨r0, u0, s0⟩ := t
          cases r0 <;> cases u0 <;> simp_all
        · cases h
  · intro device descriptor_handle r h
    unfold CTextureResource.StartUnload at h
    split at h
    · cases h
    · simp only [Except.ok.injEq] at h
      rw [← h]
      exact ⟨rfl, rfl⟩

/-- C5: for a texture `t` at index `p`, a device and a command list, both load
routines fail their asserts when `t` is not `Unloaded` or owns a buffer;
when `t` is `Unloaded` and owns none, `StartLoad` returns a `Loading` texture
owning both buffers, and `HandleRequest` for the same width, height, format,
data and binding slot returns the same texture (stored at `p`), the same device
and the same command list. -/
theorem load_routines_guard_and_agree (sz : ID3D12Resource → Nat → Nat → Nat)
    (dev : ID3D12Device) (cl : ID3D12GraphicsCommandList)
    (textures : List CTextureResource) (p : Nat) (t : CTextureResource)
    (width height format : Nat) (data : D3D12_SUBRESOURCE_DATA) (descriptor_handle : Nat)
    (ht : textures[p]? = some t) :
    ((t.state_ ≠ EResourceState.Unloaded ∨ t.resource_ ≠ none ∨ t.upload_heap_ ≠ none) →
      t.StartLoad sz (some dev) (some cl) width height format data descriptor_handle =
        Except.error Fault.assertion ∧
      ResourceManager.HandleRequest sz (some dev) (some cl) textures
        { data_ := data, texture_ := some p, width_ := width, height_ := height,
          format_ := format, descriptor_handle_ := descriptor_handle } =
        Except.error Fault.assertion) ∧
    ((t.state_ = EResourceState.Unloaded ∧ t.resource_ = none ∧ t.upload_heap_ = none) →
      ∃ t1 dev1 cl1,
        t.StartLoad sz (some dev) (some cl) width height format data descriptor_handle =
          Except.ok (t1, dev1, cl1) ∧
        t1.state_ = EResourceState.Loading ∧
        t1.resource_.isSome = true ∧ t1.upload_heap_.isSome = true ∧
        ResourceManager.HandleRequest sz (some dev) (some cl) textures
          { data_ := data, texture_ := some p, width_ := width, height_ := height,
            format_ := format, descriptor_handle_ := descriptor_handle } =
          Except.ok (dev1, cl1, textures.set p t1)) := by
  constructor
  · intro h
    exact ⟨CTextureResource.StartLoad_rejects sz t _ _ _ _ _ _ _ h,
      ResourceManager.HandleRequest_rejects sz _ _ textures _ p t rfl ht h⟩
  · rintro ⟨hs, hr, hu⟩
    have hfresh := CTextureResource.eq_fresh t hs hr hu
    subst hfresh
    obtain ⟨t1, dev1, cl1, h1, h2⟩ := ResourceManager.HandleRequest_fresh sz dev cl textures
      { data_ := data, texture_ := some p, width_ := width, height_ := height,
        format_ := format, descriptor_handle_ := descriptor_handle } p rfl ht
    refine ⟨t1, dev1, cl1, h1, ?_, ?_, ?_, h2⟩
    · rw [CTextureResource.StartLoad_fresh] at h1
      simp only [Except.ok.injEq, Prod.mk.injEq] at h1
      rw [← h1.1]
    · rw [CTextureResource.StartLoad_fresh] at h1
      simp only [Except.ok.injEq, Prod.mk.injEq] at h1
      rw [← h1.1]; rfl
    · rw [CTextureResource.StartLoad_fresh] at h1
      simp only [Except.ok.injEq, Prod.mk.injEq] at h1
      rw [← h1.1]; rfl

/-- Instance of C5: a default-constructed texture, and a 256 x 256 request. -/
theorem load_routines_guard_and_agree_witness :
    ∃ t1 dev1 cl1,
      CTextureResource.fresh.StartLoad exampleSize (some { created := 0, descriptors := [] })
        (some { recording := true, commands := [] }) 256 256 DXGI_FORMAT_R8G8B8A8_UNORM
        { pData := 4096, RowPitch := 1024, SlicePitch := 262144 } 64 =
          Except.ok (t1, dev1, cl1) ∧
      t1.state_ = EResourceState.Loading ∧
      t1.resource_.isSome = true ∧ t1.upload_heap_.isSome = true ∧
      ResourceManager.HandleRequest exampleSize (some { created := 0, descriptors := [] })
        (some { recording := true, commands := [] }) [CTextureResource.fresh]
        { data_ := { pData := 4096, RowPitch := 1024, SlicePitch := 262144 },
          texture_ := some 0, width_ := 256, height_ := 256,
          format_ := DXGI_FORMAT_R8G8B8A8_UNORM, descriptor_handle_ := 64 } =
        Except.ok (dev1, cl1, [CTextureResource.fresh].set 0 t1) :=
  (load_routines_guard_and_agree exampleSize { created := 0, descriptors := [] }
    { recording := true, commands := [] } [CTextureResource.fresh] 0 CTextureResource.fresh
    256 256 DXGI_FORMAT_R8G8B8A8_UNORM { pData := 4096, RowPitch := 1024, SlicePitch := 262144 }
    64 rfl).2 ⟨rfl, rfl, rfl⟩

/-- C6, evaluated on the code: `EndLoad` has no assert.  On a default-constructed
(`Unloaded`) texture, and on a texture in any state, it returns and the texture
is `Loaded` and valid; the engine's own transition to `Loaded`, in
`AfterExecution`, does fail its assert on an `Unloaded` texture. -/
theorem EndLoad_accepts_every_state :
    CTextureResource.fresh.EndLoad =
      Except.ok { resource_ := none, upload_heap_ := none, state_ := EResourceState.Loaded } ∧
    (∀ t : CTextureResource, ∃ t1, t.EndLoad = Except.ok t1 ∧
      t1.state_ = EResourceState.Loaded ∧ t1.IsValid = true) ∧
    ResourceManager.AfterExecution
      { World.initialized 1 with rm := { (World.initialized 1).rm with
          processing_requests := [exampleRequest 0] } } = Except.error Fault.assertion :=
  ⟨rfl, fun _ => ⟨_, rfl, rfl, rfl⟩, rfl⟩

/-- C7: on a default-constructed texture, with a device and a command list,
`StartLoad`, `EndLoad`, `StartUnload`, `EndUnload` all return, for every width,
height, format, data and binding slots; `IsValid` is false after `StartLoad`,
true after `EndLoad`, false after `StartUnload`, and the texture ends equal to
the default-constructed one: `Unloaded`, owning no buffer. -/
theorem load_unload_round_trip (sz : ID3D12Resource → Nat → Nat → Nat)
    (dev : ID3D12Device) (cl : ID3D12GraphicsCommandList)
    (width height format : Nat) (data : D3D12_SUBRESOURCE_DATA)
    (descriptor_handle unload_handle : Nat) :
    ∃ (t1 t2 t3 t4 : CTextureResource) (dev1 dev3 : ID3D12Device)
      (cl1 : ID3D12GraphicsCommandList),
      CTextureResource.fresh.StartLoad sz (some dev) (some cl) width height format data
        descriptor_handle = Except.ok (t1, dev1, cl1) ∧
      t1.IsValid = false ∧
      t1.EndLoad = Except.ok t2 ∧
      t2.IsValid = true ∧
      t2.StartUnload (some dev1) unload_handle = Except.ok (t3, dev3) ∧
      t3.IsValid = false ∧
      t3.EndUnload = Except.ok t4 ∧
      t4 = CTextureResource.fresh ∧
      t4.state_ = EResourceState.Unloaded ∧ t4.resource_ = none ∧ t4.upload_heap_ = none :=
  ⟨_, _, _, _, _, _, _, CTextureResource.StartLoad_fresh sz dev cl width height format data
    descriptor_handle, rfl, rfl, rfl, rfl, rfl, rfl, rfl, rfl, rfl, rfl⟩

/-- C8 as stated fails: after `StartLoad` and `EndLoad` the texture is `Loaded`,
not `Loading`, and owns the destination buffer and the staging buffer. -/
theorem Loaded_texture_owns_both_buffers :
    ∃ w : World,
      run exampleSize
        [Op.StartLoad 0 256 256 DXGI_FORMAT_R8G8B8A8_UNORM
           { pData := 4096, RowPitch := 1024, SlicePitch := 262144 } 64,
         Op.EndLoad 0] (World.initialized 1) = Except.ok w ∧
      ∃ t ∈ w.textures, t.resource_.isSome = true ∧ t.upload_heap_.isSome = true ∧
        t.state_ = EResourceState.Loaded ∧ t.state_ ≠ EResourceState.Loading :=
  ⟨_, rfl, _, List.mem_singleton.mpr rfl, rfl, rfl, rfl, by decide⟩

/-- C8 amended: in every state reached from the initialized engine with
default-constructed textures by public calls of the textures and of the engine,
a texture that owns a destination buffer and a staging buffer is `Loading`,
`Loaded` or `Unloading`, never `Unloaded`; a `Loading` texture owns both; and a
texture owns one buffer exactly when it owns the other. -/
theorem both_buffers_owned_implies_not_Unloaded (sz : ID3D12Resource → Nat → Nat → Nat)
    (n : Nat) (ops : List Op) (w : World)
    (h : run sz ops (World.initialized n) = Except.ok w) :
    ∀ t ∈ w.textures,
      (t.resource_.isSome = true ∧ t.upload_heap_.isSome = true →
        t.state_ = EResourceState.Loading ∨ t.state_ = EResourceState.Loaded ∨
        t.state_ = EResourceState.Unloading) ∧
      (t.state_ = EResourceState.Loading →
        t.resource_.isSome = true ∧ t.upload_heap_.isSome = true) ∧
      (t.resource_.isSome = t.upload_heap_.isSome) := by
  intro t ht
  obtain ⟨hboth, hun, hld⟩ := Inv_run sz ops _ w (Inv_initialized n) h t ht
  refine ⟨?_, ?_, hboth⟩
  · rintro ⟨hr, _⟩
    cases hs : t.state_
    · rw [hun hs] at hr
      cases hr
    · exact Or.inl rfl
    · exact Or.inr (Or.inl rfl)
    · exact Or.inr (Or.inr rfl)
  · intro hs
    exact ⟨hld hs, hboth ▸ hld hs⟩

/-- Instance of C8 amended: a full load, unload and reload of one texture
followed by an engine cycle with nothing pending. -/
theorem both_buffers_owned_implies_not_Unloaded_witness :
    ∃ w : World,
      run exampleSize exampleCycle (World.initialized 1) = Except.ok w ∧
      w.textures.map (fun t => t.state_) = [EResourceState.Loading] ∧
      ∀ t ∈ w.textures,
        (t.resource_.isSome = true ∧ t.upload_heap_.isSome = true →
          t.state_ = EResourceState.Loading ∨ t.state_ = EResourceState.Loaded ∨
          t.state_ = EResourceState.Unloading) ∧
        (t.state_ = EResourceState.Loading →
          t.resource_.isSome = true ∧ t.upload_heap_.isSome = true) ∧
        (t.resource_.isSome = t.upload_heap_.isSome) :=
  ⟨_, rfl, rfl, both_buffers_owned_implies_not_Unloaded exampleSize 1 exampleCycle _ rfl⟩

/-- C9: when the pending and the in-flight queue are both empty, `Execute`
returns the state it was given: the fence counters, the command queue (no
submission, no signal), the command list, the device, every texture, and the
two empty queues are unchanged. -/
theorem Execute_with_empty_queues_is_noop (sz : ID3D12Resource → Nat → Nat → Nat) (w : World)
    (hpending : w.rm.pending_requests = []) (hprocessing : w.rm.processing_requests = []) :
    ResourceManager.Execute sz w = Except.ok w ∧
    ∀ w1, ResourceManager.Execute sz w = Except.ok w1 →
      w1.rm.fence_.next_value_ = w.rm.fence_.next_value_ ∧
      w1.rm.fence_.value_to_wait_for_ = w.rm.fence_.value_to_wait_for_ ∧
      w1.rm.command_queue_ = w.rm.command_queue_ ∧
      w1.textures = w.textures ∧
      w1.rm.pending_requests = [] ∧ w1.rm.processing_requests = [] := by
  have hex : ResourceManager.Execute sz w = Except.ok w := by
    rw [ResourceManager.Execute_of_processing_empty sz w hprocessing]
    obtain ⟨d, c, ts, rm⟩ := w
    obtain ⟨a, q, l, u, pe, pr, f⟩ := rm
    simp only at hpending hprocessing
    subst hpending hprocessing
    rfl
  refine ⟨hex, ?_⟩
  intro w1 h1
  rw [hex] at h1
  cases h1
  exact ⟨rfl, rfl, rfl, rfl, hpending, hprocessing⟩

/-- Instance of C9 on the initialized engine with two textures. -/
theorem Execute_with_empty_queues_is_noop_witness :
    ResourceManager.Execute exampleSize (World.initialized 2) =
      Except.ok (World.initialized 2) ∧
    ∀ w1, ResourceManager.Execute exampleSize (World.initialized 2) = Except.ok w1 →
      w1.rm.fence_.next_value_ = (World.initialized 2).rm.fence_.next_value_ ∧
      w1.rm.fence_.value_to_wait_for_ = (World.initialized 2).rm.fence_.value_to_wait_for_ ∧
      w1.rm.command_queue_ = (World.initialized 2).rm.command_queue_ ∧
      w1.textures = (World.initialized 2).textures ∧
      w1.rm.pending_requests = [] ∧ w1.rm.processing_requests = [] :=
  Execute_with_empty_queues_is_noop exampleSize (World.initialized 2) rfl rfl

/-- C10 as stated fails: after `Initialize` and `2 ^ 64 - 1` signals the
64-bit `next_value_` has wrapped to 0 while `value_to_wait_for_` is
`2 ^ 64 - 1`, so `value_to_wait_for_ < next_value_` does not hold. -/
theorem fence_counters_wrap_around :
    ∃ (f0 fk : Fence) (qk : ID3D12CommandQueue),
      Fence.fresh.Initialize (some { created := 0, descriptors := [] }) = Except.ok f0 ∧
      Fence.signalTimes (2 ^ 64 - 1) f0 { log := [] } = Except.ok (fk, qk) ∧
      fk.value_to_wait_for_ = 2 ^ 64 - 1 ∧ fk.next_value_ = 0 ∧
      ¬ fk.value_to_wait_for_ < fk.next_value_ := by
  obtain ⟨fk, qk, hrun, _, hnext, hwait⟩ :=
    Fence.signalTimes_counters (2 ^ 64 - 1)
      { fence_ := some 0, next_value_ := 1, value_to_wait_for_ := 0 } { log := [] }
      (by norm_num)
  have hn : fk.next_value_ = 0 := by rw [hnext]; norm_num
  have hv : fk.value_to_wait_for_ = 2 ^ 64 - 1 := by rw [hwait]; norm_num
  exact ⟨_, fk, qk, rfl, hrun, hv, hn, by rw [hn]; exact Nat.not_lt_zero _⟩

/-- C10 amended: `Initialize` on a default-constructed fence returns with
`next_value_` 1 and `value_to_wait_for_` 0, and a wait then waits for 0; every
`SignalFromQueue` returns, records the pre-call `next_value_` as
`value_to_wait_for_` and increments `next_value_` modulo `2 ^ 64`; after `k`
signals the counters are `k mod 2 ^ 64` and `(k + 1) mod 2 ^ 64`, and
`value_to_wait_for_ < next_value_` holds whenever `k mod 2 ^ 64` is not
`2 ^ 64 - 1`, in particular for every `k` below `2 ^ 64 - 1`. -/
theorem fence_counters_after_signals (dev : ID3D12Device) (q : ID3D12CommandQueue) (k : Nat)
    (hk : k % 2 ^ 64 ≠ 2 ^ 64 - 1) :
    ∃ (f0 fk : Fence) (qk : ID3D12CommandQueue),
      Fence.fresh.Initialize (some dev) = Except.ok f0 ∧
      f0.next_value_ = 1 ∧ f0.value_to_wait_for_ = 0 ∧
      f0.WaitForCompletion = Except.ok (0, f0) ∧
      (∀ (f : Fence) (q1 : ID3D12CommandQueue), ∃ f1 q2,
        f.SignalFromQueue (some q1) = Except.ok (f1, q2) ∧
        f1.value_to_wait_for_ = f.next_value_ ∧
        f1.next_value_ = (f.next_value_ + 1) % 2 ^ 64) ∧
      Fence.signalTimes k f0 q = Except.ok (fk, qk) ∧
      fk.value_to_wait_for_ = k % 2 ^ 64 ∧
      fk.next_value_ = (k + 1) % 2 ^ 64 ∧
      fk.value_to_wait_for_ < fk.next_value_ := by
  obtain ⟨fk, qk, hrun, _, hnext, hwait⟩ :=
    Fence.signalTimes_counters k
      { fence_ := some 0, next_value_ := 1, value_to_wait_for_ := 0 } q (by norm_num)
  have hn : fk.next_value_ = (k + 1) % 2 ^ 64 := by
    rw [hnext]; simp only; rw [Nat.add_comm]
  have hv : fk.value_to_wait_for_ = k % 2 ^ 64 := by
    rw [hwait]
    by_cases h0 : k = 0
    · subst h0; rfl
    · simp only [h0, if_false]
      congr 1
      omega
  refine ⟨_, fk, qk, rfl, rfl, rfl, rfl, fun f q1 => ⟨_, _, rfl, rfl, rfl⟩, hrun, hv, hn, ?_⟩
  rw [hv, hn]
  omega

/-- Instance of C10 amended with three signals: the counters end at 3 and 4. -/
theorem fence_counters_after_signals_witness :
    ∃ (f0 fk : Fence) (qk : ID3D12CommandQueue),
      Fence.fresh.Initialize (some { created := 0, descriptors := [] }) = Except.ok f0 ∧
      f0.next_value_ = 1 ∧ f0.value_to_wait_for_ = 0 ∧
      f0.WaitForCompletion = Except.ok (0, f0) ∧
      (∀ (f : Fence) (q1 : ID3D12CommandQueue), ∃ f1 q2,
        f.SignalFromQueue (some q1) = Except.ok (f1, q2) ∧
        f1.value_to_wait_for_ = f.next_value_ ∧
        f1.next_value_ = (f.next_value_ + 1) % 2 ^ 64) ∧
      Fence.signalTimes 3 f0 { log := [] } = Except.ok (fk, qk) ∧
      fk.value_to_wait_for_ = 3 % 2 ^ 64 ∧
      fk.next_value_ = (3 + 1) % 2 ^ 64 ∧
      fk.value_to_wait_for_ < fk.next_value_ :=
  fence_counters_after_signals { created := 0, descriptors := [] } { log := [] } 3 (by decide)

end DxToy
